import Mathlib

/-!
# Verification of the cross-store conversation search engine

Shallow embedding of `src/app/api/search/route.ts` (the GET handler of the
`/api/search` route together with its helper functions
`extractTextFromBubble`, `extractTextFromRichText`,
`getProjectFromFilePath` and `determineProjectForConversation`).

Modelling conventions:
* JavaScript strings are modelled by `String` (sequences of `Char`);
  `toLowerCase` is modelled by a per-character map (`jsToLower`).
* JSON parsing of a stored value is modelled by the parse *outcome*: an
  `Option` (or a dedicated outcome type) whose `none`/failure constructor
  stands for "`JSON.parse` threw or the value had the wrong shape".
* JavaScript truthiness of a string field is the test `s ≠ ""`; an absent
  (`undefined`) field is `Option.none`.
* Database access is modelled by the data a store yields (`StoreAccess`):
  a store is absent on disk, fails to open, or yields its rows.
* `new Date(s).getTime()` is an abstract parameter `dateVal : String → Int`;
  `new Date().toISOString()` is an abstract parameter `now : String`.
-/

namespace SearchRoute

/-- Model of JavaScript `String.prototype.toLowerCase`: lower-case each
character. -/
def jsToLower (s : String) : String :=
  String.mk (s.data.map Char.toLower)

/-- Model of JavaScript `String.prototype.trim`: drop whitespace from both
ends. -/
def jsTrim (s : String) : String :=
  String.mk (((s.data.dropWhile Char.isWhitespace).reverse.dropWhile
    Char.isWhitespace).reverse)

/-- First index at which `pat` occurs in `s` (both as character lists),
offset by `i`; `none` if `pat` does not occur.  Models
`String.prototype.indexOf` (which returns the first occurrence, `0` for the
empty pattern). -/
def findSubstrAux (pat : List Char) : List Char → Nat → Option Nat
  | [], i => if pat = [] then some i else none
  | c :: rest, i =>
    if pat.isPrefixOf (c :: rest) then some i else findSubstrAux pat rest (i + 1)

/-- `findSubstr s pat` is the first index of `pat` in `s`, models
`s.indexOf(pat)` restricted to the found case. -/
def findSubstr (s pat : String) : Option Nat :=
  findSubstrAux pat.data s.data 0

/-- Model of `s.includes(pat)`. -/
def strContains (s pat : String) : Bool :=
  (findSubstr s pat).isSome

/-- Model of `s.slice(a, b)` for `0 ≤ a ≤ b` (the only way it is called in
the route: `a = max(0, i-50)`, `b = min(len, …)`). -/
def sliceStr (s : String) (a b : Nat) : String :=
  String.mk ((s.data.drop a).take (b - a))

/-- Model of `s.replace(pat, '')` for a plain-string pattern: remove the
first occurrence of `pat` from `s` (JavaScript `replace` with a string
pattern replaces only the first occurrence, anywhere in the string). -/
def stripFirst (s pat : String) : String :=
  match findSubstr s pat with
  | none => s
  | some i => String.mk (s.data.take i ++ s.data.drop (i + pat.length))

/-- Model of JavaScript `s.split(sep)` for a single-character separator
(the only separators the route uses are `'/'`, `'\'` and `':'`). -/
def jsSplit (s : String) (sep : Char) : List String :=
  (s.data.splitOn sep).map String.mk

/-- Model of `s.split(sep).pop()`: the last component of the split (JS
`split` on a nonempty separator never yields an empty array, and `pop` of
`[""]` is `""`). -/
def splitPop (s : String) (sep : Char) : String :=
  (jsSplit s sep).getLastD ""

/-- Model of `s.startsWith(pre)`. -/
def jsStartsWith (s pre : String) : Bool :=
  pre.data.isPrefixOf s.data

/-- Model of `s.slice(0, n)` / `s.substring(0, n)`: the first `n`
characters. -/
def jsTake (s : String) (n : Nat) : String :=
  String.mk (s.data.take n)

/-- A stored timestamp: the route keeps `string | number` timestamps. -/
inductive TS where
  | num (n : Int)
  | str (s : String)
deriving DecidableEq, Repr

/-- JavaScript truthiness of a timestamp value (`0` and `""` are falsy). -/
def tsTruthy : TS → Bool
  | .num n => n ≠ 0
  | .str s => s ≠ ""

/-- `tsOrElse t k` models `t || k` for an optional timestamp field `t`. -/
def tsOrElse (t : Option TS) (k : TS) : TS :=
  match t with
  | some v => if tsTruthy v then v else k
  | none => k

/-- The comparison key used by the final sort: a numeric timestamp is used
directly, a string timestamp goes through `new Date(·).getTime()`, modelled
by the abstract `dateVal`. -/
def tsKey (dateVal : String → Int) : TS → Int
  | .num n => n
  | .str s => dateVal s

/-- A node of a parsed rich-text document: the fields of the JSON object
that `extractTextFromRichText` inspects (`type`, `text`, `children`).
`none` models an absent field. -/
inductive RichNode where
  | mk (ntype : String) (ntext : Option String) (nchildren : Option (List RichNode))
deriving Repr

/-- Truthiness of the optional `text` field of a rich-text node. -/
def textTruthy : Option String → Bool
  | some s => s ≠ ""
  | none => false

/-- Translation of `extractTextFromRichText(children)`: walk the children in
order; a child of type `'text'` with truthy `text` contributes its text,
otherwise a child with a `children` array contributes its recursive
extraction. -/
def extractTextFromRichText (children : List RichNode) : String :=
  match children with
  | [] => ""
  | RichNode.mk nty ntx nch :: rest =>
    (if nty = "text" ∧ textTruthy ntx then ntx.getD ""
     else
       match nch with
       | some cs => extractTextFromRichText cs
       | none => "")
    ++ extractTextFromRichText rest
termination_by sizeOf children
decreasing_by
  all_goals simp_wf
  all_goals omega

/-- Outcome of `JSON.parse(bubble.richText)` followed by the
`richTextData.root && richTextData.root.children` shape check:
`failed` = the parse threw, `noRoot` = parsed but the root/children shape
check failed (or walking it threw), `ok cs` = root children obtained. -/
inductive RichParse where
  | failed
  | noRoot
  | ok (children : List RichNode)
deriving Repr

/-- A bubble record of the unified store, with exactly the fields the route
reads: `text`, `richText` (kept as its parse outcome), `relevantFiles`
(`some` iff present and an array), and `context.fileSelections` (each
selection's `uri.path` chain collapsed to an `Option String`). -/
structure GBubble where
  text : Option String
  richText : Option RichParse
  relevantFiles : Option (List String)
  fileSelections : Option (List (Option String))
deriving Repr

/-- Translation of `extractTextFromBubble(bubble)`: a truthy direct `text`
field (nonempty and nonempty after trim) wins; otherwise a successfully
parsed `richText` with a truthy `root.children` is walked; otherwise the
empty string. -/
def extractTextFromBubble (b : GBubble) : String :=
  let text :=
    match b.text with
    | some t => if t ≠ "" ∧ jsTrim t ≠ "" then t else ""
    | none => ""
  if text = "" then
    match b.richText with
    | some (.ok cs) => extractTextFromRichText cs
    | _ => ""
  else text

/-- The specification's model of a rich document: a tree whose nodes are
either a `Leaf(text)` or a `Container(children)`. -/
inductive SpecDoc where
  | leaf (s : String)
  | container (cs : List SpecDoc)
deriving Repr

/-- Concatenation of the leaf texts of a forest of `SpecDoc`s in document
(pre-)order. -/
def specLeafConcat (ds : List SpecDoc) : String :=
  match ds with
  | [] => ""
  | .leaf s :: rest => s ++ specLeafConcat rest
  | .container cs :: rest => specLeafConcat cs ++ specLeafConcat rest
termination_by sizeOf ds
decreasing_by
  all_goals simp_wf
  all_goals omega

/-- Embedding of the specification's document model into the JSON-node
shape the code walks: a leaf becomes a `type: 'text'` node, a container
becomes a node with a `children` array. -/
def embedDocs (ds : List SpecDoc) : List RichNode :=
  match ds with
  | [] => []
  | .leaf s :: rest => RichNode.mk "text" (some s) none :: embedDocs rest
  | .container cs :: rest =>
      RichNode.mk "container" none (some (embedDocs cs)) :: embedDocs rest
termination_by sizeOf ds
decreasing_by
  all_goals simp_wf
  all_goals omega

/-- A workspace entry produced by the directory scan: the directory name
and the `folder` field of its `workspace.json` (empty if unreadable). -/
structure WorkspaceEntry where
  name : String
  folder : String
deriving DecidableEq, Repr

/-- First `some` produced by `f` along a list — the shape of every
`for (…) { if (hit) return hit }` loop in the route. -/
def firstSome (f : α → Option β) : List α → Option β
  | [] => none
  | a :: rest =>
    match f a with
    | some b => some b
    | none => firstSome f rest

/-- JavaScript object assignment `m[k] = v` on a string-keyed record,
modelled on an association list: the new binding replaces any previous
binding of `k`. -/
def recordSet (m : List (String × α)) (k : String) (v : α) : List (String × α) :=
  (k, v) :: m.filter (fun p => p.1 ≠ k)

/-- Translation of `getProjectFromFilePath(filePath, workspaceEntries)`:
strip a `file://` marker from the path, then return the name of the first
entry whose (equally stripped) truthy folder is a prefix of the path. -/
def getProjectFromFilePath (filePath : String)
    (workspaceEntries : List WorkspaceEntry) : Option String :=
  let normalizedPath := stripFirst filePath "file://"
  firstSome (fun e =>
    if e.folder ≠ "" then
      let workspacePath := stripFirst e.folder "file://"
      if jsStartsWith normalizedPath workspacePath then some e.name else none
    else none) workspaceEntries

/-- `if (projectId) return projectId` — keep a resolver hit only if it is a
truthy string. -/
def truthyHit : Option String → Option String
  | some w => if w ≠ "" then some w else none
  | none => none

/-- A reference header of a unified-store conversation
(`fullConversationHeadersOnly` element). -/
structure Header where
  bubbleId : String
deriving Repr

/-- A `composerData:` record of the unified store, with exactly the fields
the route reads.  `newlyCreatedFiles` entries are the `file.uri.path`
chains (`none` = some link of the chain missing); `codeBlockData` is
`Object.keys` of the field in insertion order. -/
structure ComposerData where
  name : Option String
  newlyCreatedFiles : Option (List (Option String))
  codeBlockData : Option (List String)
  fullConversationHeadersOnly : Option (List Header)
  lastUpdatedAt : Option TS
  createdAt : Option TS
deriving Repr

/-- Translation of `determineProjectForConversation`: the four heuristic
stages tried in source order, first truthy hit wins. -/
def determineProjectForConversation (composerData : ComposerData)
    (composerId : String)
    (projectLayoutsMap : List (String × List String))
    (projectNameToWorkspaceId : List (String × String))
    (workspaceEntries : List WorkspaceEntry)
    (bubbleMap : List (String × GBubble)) : Option String :=
  let projectLayouts := (List.lookup composerId projectLayoutsMap).getD []
  match firstSome (fun projectName =>
      truthyHit (List.lookup projectName projectNameToWorkspaceId))
      projectLayouts with
  | some w => some w
  | none =>
  match (match composerData.newlyCreatedFiles with
    | some files =>
      if files.length > 0 then
        firstSome (fun file =>
          match file with
          | some p =>
            if p ≠ "" then truthyHit (getProjectFromFilePath p workspaceEntries)
            else none
          | none => none) files
      else none
    | none => none) with
  | some w => some w
  | none =>
  match (match composerData.codeBlockData with
    | some keys =>
      firstSome (fun filePath =>
        truthyHit (getProjectFromFilePath filePath workspaceEntries)) keys
    | none => none) with
  | some w => some w
  | none =>
    firstSome (fun header =>
      match List.lookup header.bubbleId bubbleMap with
      | some bubble =>
        match (match bubble.relevantFiles with
          | some fs =>
            firstSome (fun filePath =>
              if filePath ≠ "" then
                truthyHit (getProjectFromFilePath filePath workspaceEntries)
              else none) fs
          | none => none) with
        | some w => some w
        | none =>
          match bubble.fileSelections with
          | some sels =>
            firstSome (fun sel =>
              match sel with
              | some p =>
                if p ≠ "" then
                  truthyHit (getProjectFromFilePath p workspaceEntries)
                else none
              | none => none) sels
          | none => none
      | none => none)
      ((composerData.fullConversationHeadersOnly).getD [])

/-- Translation of the snippet construction around a bubble match
(`route.ts` lines 290–293): `matchIndex = lowered text.indexOf(lowered
query)`, window `[max(0, i-50), min(len, i + query.length + 100))`, an
ellipsis marker glued on each truncated side. -/
def mkSnippet (text queryLower query : String) : String :=
  let matchIndex := (findSubstr (jsToLower text) queryLower).getD 0
  let start := matchIndex - 50
  let stop := min text.length (matchIndex + query.length + 100)
  (if start > 0 then "..." else "") ++ sliceStr text start stop
    ++ (if stop < text.length then "..." else "")

/-- The snippet as the claim words it: the substring of the text from
`max(0, i - 50)` to `min(length, i + |q| + 100)` (computed over the
integers), prefixed with an ellipsis marker iff the window start is
strictly after the beginning, suffixed with one iff the window end is
strictly before the end. -/
def snippetClaim (text query : String) (i : Nat) : String :=
  let start := (max 0 ((i : Int) - 50)).toNat
  let stop := min text.length (i + query.length + 100)
  (if 0 < start then "..." else "") ++ sliceStr text start stop
    ++ (if stop < text.length then "..." else "")

/-- Scan a list of candidate bubble texts in order; the first text whose
lower-casing contains the (lowered) query yields its snippet. -/
def firstBubbleSnippet (queryLower query : String) : List String → Option String
  | [] => none
  | t :: rest =>
    if strContains (jsToLower t) queryLower then some (mkSnippet t queryLower query)
    else firstBubbleSnippet queryLower query rest

/-- The conversation-matching discipline shared by all four sources: the
(possibly absent) title matches first and is returned whole, otherwise the
bubble texts are scanned in order for the first snippet. -/
def matchConv (queryLower query : String) (title : Option String)
    (texts : List String) : Option String :=
  match title with
  | some t =>
    if strContains (jsToLower t) queryLower then some t
    else firstBubbleSnippet queryLower query texts
  | none => firstBubbleSnippet queryLower query texts

/-- Title of a unified-store agent conversation:
`composerData.name || 'Conversation ' + composerId.slice(0, 8)`. -/
def agentTitle (cd : ComposerData) (composerId : String) : String :=
  match cd.name with
  | some n => if n ≠ "" then n else "Conversation " ++ jsTake composerId 8
  | none => "Conversation " ++ jsTake composerId 8

/-- The bubble scan of the unified-store agent branch (`route.ts` lines
281–298): for each header in order, look the bubble up in the bubble map,
extract its text, and stop at the first text containing the query. -/
def agentScanBubbles (bubbleMap : List (String × GBubble))
    (queryLower query : String) (headers : List Header) : Option String :=
  firstSome (fun h =>
    match List.lookup h.bubbleId bubbleMap with
    | some b =>
      let text := extractTextFromBubble b
      if strContains (jsToLower text) queryLower then
        some (mkSnippet text queryLower query)
      else none
    | none => none) headers

/-- The whole matching step of the unified-store agent branch (`route.ts`
lines 272–298): title first, then the bubble scan. -/
def agentMatchResult (bubbleMap : List (String × GBubble))
    (queryLower query : String) (cd : ComposerData) (composerId : String) :
    Option String :=
  let title := agentTitle cd composerId
  if strContains (jsToLower title) queryLower then some title
  else agentScanBubbles bubbleMap queryLower query
    ((cd.fullConversationHeadersOnly).getD [])

/-- An inline bubble of an ask-conversation tab (legacy shape). -/
structure TabBubble where
  text : Option String
deriving Repr

/-- An ask-conversation tab, with exactly the fields the route reads. -/
structure Tab where
  tabId : Option String
  chatTitle : Option String
  lastSendTime : Option TS
  bubbles : Option (List TabBubble)
deriving Repr

/-- The ask-tab document held under the fixed chat-data key. -/
structure ChatData where
  tabs : Option (List Tab)
deriving Repr

/-- The matching step of an ask-conversation tab (`route.ts` lines 329–349
and identically lines 402–422): optional-chained title test first, then the
inline bubble scan over optional `text` fields. -/
def tabMatchResult (queryLower query : String) (tab : Tab) : Option String :=
  match (match tab.chatTitle with
    | some t => if strContains (jsToLower t) queryLower then some t else none
    | none => none) with
  | some mt => some mt
  | none =>
    match tab.bubbles with
    | some bs =>
      firstSome (fun b =>
        match b.text with
        | some t =>
          if strContains (jsToLower t) queryLower then
            some (mkSnippet t queryLower query)
          else none
        | none => none) bs
    | none => none

/-- Displayed title of an ask tab:
`tab.chatTitle || 'Chat ' + (tab.tabId?.substring(0, 8) || 'Untitled')`. -/
def tabTitle (tab : Tab) : String :=
  let fallback := "Chat " ++
    (match tab.tabId with
     | some s => if jsTake s 8 ≠ "" then jsTake s 8 else "Untitled"
     | none => "Untitled")
  match tab.chatTitle with
  | some t => if t ≠ "" then t else fallback
  | none => fallback

/-- A message of a legacy composer conversation. -/
structure LMsg where
  text : Option String
deriving Repr

/-- A legacy composer conversation (`allComposers` element). -/
structure LComposer where
  composerId : Option String
  text : Option String
  conversation : Option (List LMsg)
  lastUpdatedAt : Option TS
  createdAt : Option TS
deriving Repr

/-- The legacy composer document held under `composer.composerData`. -/
structure LegacyComposerData where
  allComposers : Option (List LComposer)
deriving Repr

/-- The matching step of a legacy composer conversation (`route.ts` lines
455–475): `composer.text` as the title, then the `conversation` message
scan. -/
def lcomposerMatch (queryLower query : String) (c : LComposer) : Option String :=
  match (match c.text with
    | some t => if strContains (jsToLower t) queryLower then some t else none
    | none => none) with
  | some mt => some mt
  | none =>
    match c.conversation with
    | some msgs =>
      firstSome (fun m =>
        match m.text with
        | some t =>
          if strContains (jsToLower t) queryLower then
            some (mkSnippet t queryLower query)
          else none
        | none => none) msgs
    | none => none

/-- A search result record as returned by the route (`chatId` is kept
optional: the ask branches copy a possibly-absent `tabId` into it). -/
structure SearchResult where
  workspaceId : String
  workspaceFolder : Option String
  chatId : Option String
  chatTitle : String
  timestamp : TS
  matchingText : String
  rtype : String
deriving DecidableEq, Repr

/-- How a persisted store presents itself to the scan: absent on disk,
present but failing to open, or open with its contents. -/
inductive StoreAccess (α : Type) where
  | absent
  | openFail
  | ok (s : α)
deriving Repr

/-- A `messageRequestContext:` record's parsed `projectLayouts` element:
not a string, an unparsable string, or a parsed object with an optional
`rootPath`. -/
inductive LayoutElem where
  | notString
  | badJson
  | parsed (rootPath : Option String)
deriving Repr

/-- A `messageRequestContext:` record value, reduced to the one field the
route reads (`none` on the field = `projectLayouts` missing or not an
array). -/
structure CtxRow where
  projectLayouts : Option (List LayoutElem)
deriving Repr

/-- Contents of the unified (global) store, organised by the four queries
the route issues: `bubbleId:%` rows, `messageRequestContext:%` rows,
`composerData:%` rows (already length-filtered by the SQL), and the fixed
ask chat-data row.  Each row keeps its full key and the parse outcome of
its value (`none` = `JSON.parse` threw, or for bubbles, a non-object). -/
structure GlobalStore where
  bubbleRows : List (String × Option GBubble)
  contextRows : List (String × Option CtxRow)
  composerRows : List (String × Option ComposerData)
  chatRow : Option (Option ChatData)
deriving Repr

/-- Contents of a legacy per-workspace store: the fixed ask chat-data row
and the fixed composer row (outer `Option` = row present with truthy value,
inner = parse outcome). -/
structure LegacyStore where
  chatRow : Option (Option ChatData)
  composerRow : Option (Option LegacyComposerData)
deriving Repr

/-- Build `projectNameToWorkspaceId` (`route.ts` lines 172–180): for each
entry with a truthy folder, the last `/`-segment of the folder (falling
back to the last `\`-segment) maps to the entry name; later entries
overwrite earlier ones. -/
def buildProjectNameIndex (entries : List WorkspaceEntry) :
    List (String × String) :=
  entries.foldl (fun m e =>
    if e.folder ≠ "" then
      let folderName :=
        let a := splitPop e.folder '/'
        if a ≠ "" then a else splitPop e.folder '\\'
      if folderName ≠ "" then recordSet m folderName e.name else m
    else m) []

/-- Build the bubble map (`route.ts` lines 190–207): rows whose key has at
least three `:`-parts and whose value parses to an object are entered under
the third key part; malformed rows are skipped. -/
def buildBubbleMap (rows : List (String × Option GBubble)) :
    List (String × GBubble) :=
  rows.foldl (fun m row =>
    let parts := jsSplit row.1 ':'
    if parts.length ≥ 3 then
      match row.2 with
      | some b => recordSet m (parts.getD 2 "") b
      | none => m
    else m) []

/-- Root paths contributed by one context row's `projectLayouts`: the
string elements that parse to an object with a truthy `rootPath`. -/
def layoutRootPaths (elems : List LayoutElem) : List String :=
  elems.filterMap (fun e =>
    match e with
    | .parsed (some rp) => if rp ≠ "" then some rp else none
    | _ => none)

/-- Build `projectLayoutsMap` (`route.ts` lines 210–241): rows whose key
has at least two `:`-parts and whose value parses with a `projectLayouts`
array append their root paths under the second key part. -/
def buildProjectLayoutsMap (rows : List (String × Option CtxRow)) :
    List (String × List String) :=
  rows.foldl (fun m row =>
    let parts := jsSplit row.1 ':'
    if parts.length ≥ 2 then
      match row.2 with
      | some ctx =>
        match ctx.projectLayouts with
        | some elems =>
          let cid := parts.getD 1 ""
          recordSet m cid (((List.lookup cid m).getD []) ++ layoutRootPaths elems)
        | none => m
      | none => m
    else m) []

/-- Process one `composerData:` row of the unified agent branch
(`route.ts` lines 247–314): parse, resolve the project, match, and emit a
result only when both the match and a truthy project id exist. -/
def agentRowResult (bubbleMap : List (String × GBubble))
    (layouts : List (String × List String))
    (idx : List (String × String))
    (entries : List WorkspaceEntry)
    (queryLower query now : String)
    (row : String × Option ComposerData) : Option SearchResult :=
  let composerId := (jsSplit row.1 ':').getD 1 ""
  match row.2 with
  | none => none
  | some cd =>
    let projectId :=
      determineProjectForConversation cd composerId layouts idx entries bubbleMap
    let workspaceFolder :=
      (entries.find? (fun e => projectId = some e.name)).map (·.folder)
    match agentMatchResult bubbleMap queryLower query cd composerId with
    | none => none
    | some matchingText =>
      match projectId with
      | some pid =>
        if pid ≠ "" then
          some { workspaceId := pid, workspaceFolder := workspaceFolder,
                 chatId := some composerId,
                 chatTitle := agentTitle cd composerId,
                 timestamp := tsOrElse cd.lastUpdatedAt
                   (tsOrElse cd.createdAt (.str now)),
                 matchingText := matchingText, rtype := "composer" }
        else none
      | none => none

/-- Emit the result of one matching ask tab (`route.ts` lines 351–361 with
`workspaceId = 'global'`, and lines 424–434 with the legacy workspace). -/
def tabResult (queryLower query now : String) (wsId : String)
    (wsFolder : Option String) (tab : Tab) : Option SearchResult :=
  (tabMatchResult queryLower query tab).map (fun matchingText =>
    { workspaceId := wsId, workspaceFolder := wsFolder, chatId := tab.tabId,
      chatTitle := tabTitle tab,
      timestamp := tsOrElse tab.lastSendTime (.str now),
      matchingText := matchingText, rtype := "chat" })

/-- Results contributed by one fixed-key ask chat-data row: nothing unless
the row exists, parses, and carries a `tabs` array. -/
def chatDataResults (queryLower query now : String) (wsId : String)
    (wsFolder : Option String) (row : Option (Option ChatData)) :
    List SearchResult :=
  match row with
  | some (some cd) =>
    match cd.tabs with
    | some tabs => tabs.filterMap (tabResult queryLower query now wsId wsFolder)
    | none => []
  | _ => []

/-- Displayed title of a legacy composer conversation.  Returns `none` when
the code would throw: `composer.text || 'Composer ' +
composer.composerId.substring(0, 8)` raises a `TypeError` when `text` is
falsy and `composerId` is absent. -/
def lcomposerTitle (c : LComposer) : Option String :=
  let fallback := c.composerId.map (fun cid => "Composer " ++ jsTake cid 8)
  match c.text with
  | some t => if t ≠ "" then some t else fallback
  | none => fallback

/-- The legacy composer loop (`route.ts` lines 454–488).  A thrown title
construction is caught by the surrounding parse-`catch`, which aborts the
remaining composers of this store (results already pushed are kept). -/
def legacyComposerScan (queryLower query now : String) (e : WorkspaceEntry) :
    List LComposer → List SearchResult
  | [] => []
  | c :: rest =>
    match lcomposerMatch queryLower query c with
    | none => legacyComposerScan queryLower query now e rest
    | some matchingText =>
      match lcomposerTitle c with
      | none => []
      | some title =>
        { workspaceId := e.name, workspaceFolder := some e.folder,
          chatId := c.composerId, chatTitle := title,
          timestamp := tsOrElse c.lastUpdatedAt
            (tsOrElse c.createdAt (.str now)),
          matchingText := matchingText, rtype := "composer" }
          :: legacyComposerScan queryLower query now e rest

/-- Results of the legacy composer row of one workspace store. -/
def legacyComposerResults (queryLower query now : String) (e : WorkspaceEntry)
    (row : Option (Option LegacyComposerData)) : List SearchResult :=
  match row with
  | some (some cd) =>
    match cd.allComposers with
    | some cs => legacyComposerScan queryLower query now e cs
    | none => []
  | _ => []

/-- Results contributed by one workspace's legacy store (`route.ts` lines
382–500): nothing if the store file is absent or fails to open; otherwise
the ask section followed by the composer section, each gated by the
requested type. -/
def legacyEntryResults (typeParam queryLower query now : String)
    (legacyStores : List (String × StoreAccess LegacyStore))
    (e : WorkspaceEntry) : List SearchResult :=
  match List.lookup e.name legacyStores with
  | some (.ok s) =>
    (if typeParam = "all" ∨ typeParam = "chat" then
      chatDataResults queryLower query now e.name (some e.folder) s.chatRow
     else [])
    ++ (if typeParam = "all" ∨ typeParam = "composer" then
      legacyComposerResults queryLower query now e s.composerRow
     else [])
  | _ => []

/-- Results contributed by the unified (global) store (`route.ts` lines
185–379): nothing if absent or failing to open; otherwise the agent
(composer) section followed by the ask (chat) section. -/
def unifiedResults (typeParam queryLower query now : String)
    (entries : List WorkspaceEntry) (gs : StoreAccess GlobalStore) :
    List SearchResult :=
  match gs with
  | .ok s =>
    let bubbleMap := buildBubbleMap s.bubbleRows
    let layouts := buildProjectLayoutsMap s.contextRows
    let idx := buildProjectNameIndex entries
    (if typeParam = "all" ∨ typeParam = "composer" then
      s.composerRows.filterMap
        (agentRowResult bubbleMap layouts idx entries queryLower query now)
     else [])
    ++ (if typeParam = "all" ∨ typeParam = "chat" then
      chatDataResults queryLower query now "global" none s.chatRow
     else [])
  | _ => []

/-- The deduplication of `route.ts` lines 502–505
(`filter((r, i, self) => i === self.findIndex(x => x.chatId === r.chatId))`):
an element survives iff no element before it carries the same `chatId`.
`seen` is the already-scanned prefix. -/
def dedupAux (seen : List SearchResult) :
    List SearchResult → List SearchResult
  | [] => []
  | r :: rest =>
    if seen.any (fun x => x.chatId == r.chatId) then dedupAux (seen ++ [r]) rest
    else r :: dedupAux (seen ++ [r]) rest

/-- Deduplicate the accumulated results by `chatId`. -/
def dedupByChatId (l : List SearchResult) : List SearchResult :=
  dedupAux [] l

/-- The claim-side formulation of "keep the first occurrence of each
`chatId`": keep the head and recursively deduplicate the tail with the
head's `chatId` removed. -/
def dedupFirst : List SearchResult → List SearchResult
  | [] => []
  | r :: rest =>
    r :: dedupFirst (rest.filter (fun x => !(x.chatId == r.chatId)))
termination_by l => l.length
decreasing_by
  simp only [List.length_cons]
  exact Nat.lt_succ_of_le (List.length_filter_le _ _)

/-- The final sort (`route.ts` lines 507–512): stable sort, descending by
the normalized timestamp key. -/
def sortResults (dateVal : String → Int) (l : List SearchResult) :
    List SearchResult :=
  l.mergeSort (fun a b =>
    decide (tsKey dateVal b.timestamp ≤ tsKey dateVal a.timestamp))

/-- The request environment of one GET invocation: the two query
parameters, the abstract clock and date parser, the scanned workspace
entries, and the persisted stores. -/
structure Env where
  query : Option String
  typeParamRaw : Option String
  now : String
  dateVal : String → Int
  workspaceEntries : List WorkspaceEntry
  globalStore : StoreAccess GlobalStore
  legacyStores : List (String × StoreAccess LegacyStore)

/-- `searchParams.get('type') || 'all'`. -/
def typeParamOf (env : Env) : String :=
  match env.typeParamRaw with
  | some t => if t ≠ "" then t else "all"
  | none => "all"

/-- The raw accumulated result list, in push order: unified-store agent
results, unified-store ask results, then each workspace's legacy results in
enumeration order. -/
def rawResults (env : Env) (q : String) : List SearchResult :=
  let queryLower := jsToLower q
  let tp := typeParamOf env
  unifiedResults tp queryLower q env.now env.workspaceEntries env.globalStore
    ++ env.workspaceEntries.flatMap
      (legacyEntryResults tp queryLower q env.now env.legacyStores)

/-- The route's response. -/
inductive Response where
  | clientError (msg : String)
  | ok (results : List SearchResult)
deriving Repr

/-- The GET handler: reject a falsy query with the fixed client error,
otherwise scan, deduplicate and sort. -/
def searchGET (env : Env) : Response :=
  match env.query with
  | none => .clientError "No search query provided"
  | some q =>
    if q = "" then .clientError "No search query provided"
    else .ok (sortResults env.dateVal (dedupByChatId (rawResults env q)))

/-- Names of the stores whose handles the request successfully opens, in
order ("global" for the unified store, the entry name for a legacy store).
A store that is absent is never opened; a store whose constructor throws
(`openFail`) never yields a handle. -/
def opensOf (env : Env) : List String :=
  match env.query with
  | none => []
  | some q =>
    if q = "" then []
    else
      (match env.globalStore with
       | .ok _ => ["global"]
       | _ => [])
      ++ env.workspaceEntries.filterMap (fun e =>
        match List.lookup e.name env.legacyStores with
        | some (.ok _) => some e.name
        | _ => none)

/-- Stage 1 of the resolver as the code implements it: each recorded
project-layout root path of the conversation is looked up, verbatim, in the
folder index. -/
def stageProjectLayouts (projectLayoutsMap : List (String × List String))
    (idx : List (String × String)) (composerId : String) : Option String :=
  firstSome (fun projectName => truthyHit (List.lookup projectName idx))
    ((List.lookup composerId projectLayoutsMap).getD [])

/-- Stage 2 of the resolver: newly-created-file paths tested as prefix
matches against the workspace folders. -/
def stageNewFiles (cd : ComposerData) (entries : List WorkspaceEntry) :
    Option String :=
  match cd.newlyCreatedFiles with
  | some files =>
    if files.length > 0 then
      firstSome (fun file =>
        match file with
        | some p =>
          if p ≠ "" then truthyHit (getProjectFromFilePath p entries) else none
        | none => none) files
    else none
  | none => none

/-- Stage 3 of the resolver: code-block file paths with the same prefix
test. -/
def stageCodeBlocks (cd : ComposerData) (entries : List WorkspaceEntry) :
    Option String :=
  match cd.codeBlockData with
  | some keys =>
    firstSome (fun filePath => truthyHit (getProjectFromFilePath filePath entries))
      keys
  | none => none

/-- Stage 4 of the resolver: for each referenced bubble in order, its
explicit file-reference list, then its context file selections, stopping at
the first hit. -/
def stageBubbleRefs (cd : ComposerData) (bubbleMap : List (String × GBubble))
    (entries : List WorkspaceEntry) : Option String :=
  firstSome (fun header =>
    match List.lookup header.bubbleId bubbleMap with
    | some bubble =>
      match (match bubble.relevantFiles with
        | some fs =>
          firstSome (fun filePath =>
            if filePath ≠ "" then
              truthyHit (getProjectFromFilePath filePath entries)
            else none) fs
        | none => none) with
      | some w => some w
      | none =>
        match bubble.fileSelections with
        | some sels =>
          firstSome (fun sel =>
            match sel with
            | some p =>
              if p ≠ "" then truthyHit (getProjectFromFilePath p entries)
              else none
            | none => none) sels
        | none => none
    | none => none)
    ((cd.fullConversationHeadersOnly).getD [])

/-- The four resolver stages chained in order, first success winning. -/
def resolverChain (cd : ComposerData) (composerId : String)
    (projectLayoutsMap : List (String × List String))
    (idx : List (String × String))
    (entries : List WorkspaceEntry)
    (bubbleMap : List (String × GBubble)) : Option String :=
  match stageProjectLayouts projectLayoutsMap idx composerId with
  | some w => some w
  | none =>
    match stageNewFiles cd entries with
    | some w => some w
    | none =>
      match stageCodeBlocks cd entries with
      | some w => some w
      | none => stageBubbleRefs cd bubbleMap entries

/-- Modelled from the spec: stage 1 of the resolver as the specification
words it — each candidate root path's *final path segment* (rather than the
root path itself) is looked up in the folder index.  Only this stage
differs from the code; it is the claim-side definition used to compare the
claimed resolver with the implemented one. -/
def stageProjectLayoutsSpec (projectLayoutsMap : List (String × List String))
    (idx : List (String × String)) (composerId : String) : Option String :=
  firstSome (fun rootPath => truthyHit (List.lookup (splitPop rootPath '/') idx))
    ((List.lookup composerId projectLayoutsMap).getD [])

/-- Modelled from the spec: the whole resolver as the claim describes it,
with the claimed final-path-segment lookup in stage 1 and the implemented
stages 2–4. -/
def resolverClaimC2 (cd : ComposerData) (composerId : String)
    (projectLayoutsMap : List (String × List String))
    (idx : List (String × String))
    (entries : List WorkspaceEntry)
    (bubbleMap : List (String × GBubble)) : Option String :=
  match stageProjectLayoutsSpec projectLayoutsMap idx composerId with
  | some w => some w
  | none =>
    match stageNewFiles cd entries with
    | some w => some w
    | none =>
      match stageCodeBlocks cd entries with
      | some w => some w
      | none => stageBubbleRefs cd bubbleMap entries

/-- A store-handle event of the scan. -/
inductive Ev where
  | op (name : String)
  | cl (name : String)
deriving DecidableEq, Repr

/-- Control-flow environment for the handle-lifecycle model: whether the
query check passes, and for each store whether it is absent, fails to open,
or opens (with the flag telling whether its scan throws after opening). -/
structure TraceEnv where
  queryOk : Bool
  globalAccess : StoreAccess Bool
  legacy : List (String × StoreAccess Bool)

/-- Handle events of one request, in order.  The unified store is closed on
the success path (line 370) and in its `catch` (lines 374–377) alike; a
legacy store is closed on the success path (line 496) but its `catch`
(lines 497–499) does not close, so a legacy scan that throws after opening
leaves its handle open. -/
def scanTrace (t : TraceEnv) : List Ev :=
  if t.queryOk then
    (match t.globalAccess with
     | .ok _ => [.op "global", .cl "global"]
     | _ => [])
    ++ t.legacy.flatMap (fun p =>
      match p.2 with
      | .ok throws => if throws then [.op p.1] else [.op p.1, .cl p.1]
      | _ => [])
  else []

/-- Checker for the claimed handle discipline, carrying the currently open
handle: no second open while one is open, every open closed, nothing open
at the end. -/
def disciplinedFrom : List Ev → Option String → Bool
  | [], some _ => false
  | [], none => true
  | .op n :: rest, none => disciplinedFrom rest (some n)
  | .op _ :: _, some _ => false
  | .cl n :: rest, some m => if n = m then disciplinedFrom rest none else false
  | .cl _ :: _, none => false

/-- The claimed handle discipline: every opened handle is closed before the
scan moves on, and none is left open. -/
def disciplined (tr : List Ev) : Bool :=
  disciplinedFrom tr none

/-! ## Supporting lemmas -/

theorem extract_embed_eq_specLeafConcat (ds : List SpecDoc) :
    extractTextFromRichText (embedDocs ds) = specLeafConcat ds := by
  induction ds using embedDocs.induct with
  | case1 => simp [embedDocs, extractTextFromRichText, specLeafConcat]
  | case2 s rest ih =>
    rw [embedDocs]
    rw [extractTextFromRichText, specLeafConcat]
    by_cases h : s = ""
    · subst h
      simp [textTruthy, ih]
    · simp [textTruthy, h, ih]
  | case3 cs rest ih1 ih2 =>
    rw [embedDocs]
    rw [extractTextFromRichText, specLeafConcat]
    simp [textTruthy, ih1, ih2]

theorem toNat_max_sub_fifty (i : Nat) : (max 0 ((i : Int) - 50)).toNat = i - 50 := by
  omega

theorem chatDataResults_fields (queryLower query now wsId : String)
    (wsFolder : Option String) (row : Option (Option ChatData)) :
    ∀ r ∈ chatDataResults queryLower query now wsId wsFolder row,
      r.workspaceId = wsId ∧ r.workspaceFolder = wsFolder := by
  intro r hr
  rcases row with _ | (_ | ⟨_ | tabs⟩)
  · simp [chatDataResults] at hr
  · simp [chatDataResults] at hr
  · simp [chatDataResults] at hr
  · simp only [chatDataResults, List.mem_filterMap] at hr
    obtain ⟨tab, -, htr⟩ := hr
    unfold tabResult at htr
    obtain ⟨mt, -, rfl⟩ := Option.map_eq_some'.mp htr
    exact ⟨rfl, rfl⟩

/-! ## Claim theorems -/

/-- C5 (amended): bubble text extraction obeys this precedence: a direct
text field that is nonempty *after trimming* is returned outright (a
non-empty but whitespace-only field is treated like an absent one);
otherwise a successfully parsed rich document yields the concatenation of
its leaf texts in document pre-order (at any finite nesting depth,
witnessed by the embedding of the specification's leaf/container document
model); on any parse or shape failure the empty string is returned. -/
theorem C5_extraction_precedence (b : GBubble) :
    (∀ t, b.text = some t → jsTrim t ≠ "" → extractTextFromBubble b = t) ∧
    (∀ cs, (∀ t, b.text = some t → t = "" ∨ jsTrim t = "") →
      b.richText = some (.ok cs) →
      extractTextFromBubble b = extractTextFromRichText cs) ∧
    ((∀ t, b.text = some t → t = "" ∨ jsTrim t = "") →
      (b.richText = some .failed ∨ b.richText = some .noRoot ∨ b.richText = none) →
      extractTextFromBubble b = "") ∧
    (∀ ds, extractTextFromRichText (embedDocs ds) = specLeafConcat ds) := by
  obtain ⟨btext, brich, brf, bfs⟩ := b
  refine ⟨?_, ?_, ?_, extract_embed_eq_specLeafConcat⟩
  · intro t ht htrim
    have hne : t ≠ "" := by
      intro he
      subst he
      exact htrim (by decide)
    simp only at ht
    subst ht
    simp [extractTextFromBubble, hne, htrim]
  · intro cs hfalsy hrich
    simp only at hrich
    subst hrich
    rcases btext with _ | t
    · simp [extractTextFromBubble]
    · rcases hfalsy t rfl with h | h
      · subst h
        simp [extractTextFromBubble]
      · simp [extractTextFromBubble, h]
  · intro hfalsy hrich
    rcases btext with _ | t
    · rcases hrich with h | h | h <;> (simp only at h; subst h) <;>
        simp [extractTextFromBubble]
    · rcases hfalsy t rfl with ht | ht
      · subst ht
        rcases hrich with h | h | h <;> (simp only at h; subst h) <;>
          simp [extractTextFromBubble]
      · rcases hrich with h | h | h <;> (simp only at h; subst h) <;>
          simp [extractTextFromBubble, ht]

/-- C5 witness: a bubble with truthy direct text extracts that text, and a
three-level-nested container with leaves `A`, `B`, `C` extracts to
`ABC`. -/
theorem C5_extraction_precedence_witness :
    extractTextFromBubble
      { text := some "hi", richText := some .failed,
        relevantFiles := none, fileSelections := none } = "hi" ∧
    extractTextFromRichText (embedDocs
      [.container [.container [.leaf "A", .leaf "B"], .leaf "C"]]) = "ABC" :=
  ⟨(C5_extraction_precedence _).1 "hi" rfl (by decide),
   ((C5_extraction_precedence
      { text := some "hi", richText := some .failed,
        relevantFiles := none, fileSelections := none }).2.2.2
      [.container [.container [.leaf "A", .leaf "B"], .leaf "C"]]).trans
      (by simp [specLeafConcat])⟩

/-- A bubble whose direct text field is non-empty but whitespace-only,
while its rich document holds the single leaf `X`. -/
def bubbleWs : GBubble where
  text := some " "
  richText := some (.ok [RichNode.mk "text" (some "X") none])
  relevantFiles := none
  fileSelections := none

/-- C5 counterexample: the claim says a *non-empty* direct text field is
returned outright, but the code's guard is `bubble.text &&
bubble.text.trim()` (`route.ts:21`): for the non-empty, whitespace-only
direct text `" "` the extraction falls through to the rich document and
returns `X`, not `" "`. -/
theorem C5_whitespace_text_counterexample :
    bubbleWs.text = some " " ∧ (" " : String) ≠ "" ∧
    extractTextFromBubble bubbleWs = "X" ∧
    extractTextFromBubble bubbleWs ≠ " " := by
  have hj : jsTrim " " = "" := by decide
  have h1 : extractTextFromRichText [RichNode.mk "text" (some "X") none]
      = "X" := by
    simp [extractTextFromRichText, textTruthy]
  have h2 : extractTextFromBubble bubbleWs = "X" := by
    simp [extractTextFromBubble, bubbleWs, hj, h1]
  refine ⟨rfl, by decide, h2, ?_⟩
  rw [h2]
  decide

/-- C6: whenever the (lowered) query is found in a bubble's text at index
`i`, the produced snippet is exactly the claim's formula: the substring
from `max(0, i - 50)` to `min(length, i + |query| + 100)`, with an ellipsis
marker on the left iff the window start is strictly after the beginning of
the text and on the right iff the window end is strictly before its end. -/
theorem C6_snippet_window (text queryLower query : String) (i : Nat)
    (h : findSubstr (jsToLower text) queryLower = some i) :
    mkSnippet text queryLower query = snippetClaim text query i := by
  unfold mkSnippet snippetClaim
  rw [h]
  simp only [Option.getD_some, toNat_max_sub_fifty]

/-- C6 witness: match at index 2 in a five-character text. -/
theorem C6_snippet_window_witness :
    mkSnippet "abCDe" "cd" "CD" = snippetClaim "abCDe" "CD" 2 :=
  C6_snippet_window "abCDe" "cd" "CD" 2 (by decide)

/-- C9: a missing or empty query parameter yields the fixed client-error
response, performs no scan and opens no store handle; a request with a
non-empty query proceeds to the scan/deduplication/sort pipeline. -/
theorem C9_query_gate (env : Env) :
    ((env.query = none ∨ env.query = some "") →
      searchGET env = .clientError "No search query provided" ∧ opensOf env = []) ∧
    (∀ q, env.query = some q → q ≠ "" →
      searchGET env
        = .ok (sortResults env.dateVal (dedupByChatId (rawResults env q)))) := by
  constructor
  · rintro (h | h) <;> exact ⟨by simp [searchGET, h], by simp [opensOf, h]⟩
  · intro q hq hne
    simp [searchGET, hq, hne]

/-- A request environment with an empty query and no stores, used as a
concrete evaluation point. -/
def envEmptyQuery : Env where
  query := some ""
  typeParamRaw := none
  now := ""
  dateVal := fun _ => 0
  workspaceEntries := []
  globalStore := .absent
  legacyStores := []

/-- A request environment with a non-empty query and no stores, used as a
concrete evaluation point. -/
def envNeedle : Env where
  query := some "needle"
  typeParamRaw := none
  now := ""
  dateVal := fun _ => 0
  workspaceEntries := []
  globalStore := .absent
  legacyStores := []

/-- C9 witness: an empty query is rejected without opening a store, and a
non-empty query on an empty environment reaches the pipeline. -/
theorem C9_query_gate_witness :
    searchGET envEmptyQuery = .clientError "No search query provided" ∧
    opensOf envEmptyQuery = [] ∧
    searchGET envNeedle = .ok [] :=
  ⟨((C9_query_gate envEmptyQuery).1 (Or.inr rfl)).1,
   ((C9_query_gate envEmptyQuery).1 (Or.inr rfl)).2,
   ((C9_query_gate envNeedle).2 "needle" rfl (by decide)).trans
     (by simp [envNeedle, rawResults, unifiedResults, typeParamOf,
       dedupByChatId, dedupAux, sortResults])⟩

/-- C10: every ask-conversation result materialized from the unified store
carries the literal workspace id `global` and no workspace folder; the
unified ask branch is a function of the fixed chat-data row alone, so the
project resolver (and its inputs: bubble rows, context rows, workspace
entries) can never attribute such a result to a real workspace. -/
theorem C10_unified_ask_global (queryLower query now : String)
    (row : Option (Option ChatData)) :
    (∀ r ∈ chatDataResults queryLower query now "global" none row,
      r.workspaceId = "global" ∧ r.workspaceFolder = none) ∧
    (∀ (tp : String) (entries : List WorkspaceEntry) (s : GlobalStore),
      s.chatRow = row →
      unifiedResults tp queryLower query now entries (.ok s)
        = (if tp = "all" ∨ tp = "composer" then
            s.composerRows.filterMap
              (agentRowResult (buildBubbleMap s.bubbleRows)
                (buildProjectLayoutsMap s.contextRows)
                (buildProjectNameIndex entries) entries queryLower query now)
           else [])
          ++ (if tp = "all" ∨ tp = "chat" then
            chatDataResults queryLower query now "global" none row
           else [])) := by
  refine ⟨chatDataResults_fields queryLower query now "global" none row, ?_⟩
  intro tp entries s hs
  rw [← hs]
  rfl

/-- A concrete ask tab whose title contains `needle`. -/
def tabNeedle : Tab where
  tabId := some "t1"
  chatTitle := some "old needle chat"
  lastSendTime := none
  bubbles := none

/-- The search result the unified ask branch materializes from
`tabNeedle`. -/
def resNeedle : SearchResult where
  workspaceId := "global"
  workspaceFolder := none
  chatId := some "t1"
  chatTitle := "old needle chat"
  timestamp := TS.str "now"
  matchingText := "old needle chat"
  rtype := "chat"

/-- C10 witness: a unified-store ask tab matching the query materializes
with workspace id `global` and no folder. -/
theorem C10_unified_ask_global_witness :
    resNeedle.workspaceId = "global" ∧ resNeedle.workspaceFolder = none :=
  (C10_unified_ask_global "needle" "needle" "now"
    (some (some { tabs := some [tabNeedle] }))).1 resNeedle (by decide)

/-- C8 evaluation: with one legacy store whose scan throws after its handle
is opened followed by a healthy legacy store, the handle trace opens `w1`,
never closes it, and opens `w2` — violating the claimed discipline; by
contrast a unified-store scan error still closes the global handle. -/
theorem C8_legacy_handle_leak :
    scanTrace
        { queryOk := true, globalAccess := .absent,
          legacy := [("w1", .ok true), ("w2", .ok false)] }
      = [.op "w1", .op "w2", .cl "w2"] ∧
    disciplined [.op "w1", .op "w2", .cl "w2"] = false ∧
    disciplined (scanTrace
        { queryOk := true, globalAccess := .ok true, legacy := [] }) = true ∧
    disciplined (scanTrace
        { queryOk := true, globalAccess := .ok false,
          legacy := [("w1", .ok false), ("w2", .ok false)] }) = true := by
  refine ⟨by decide, by decide, by decide, by decide⟩

/-- C2 counterexample: a conversation whose only resolver evidence is the
project-layout root path `/a/b`, with folder index `{b ↦ W}`: the claimed
stage 1 (look the root path's final segment up in the index) resolves `W`,
but the implemented stage 1 looks up the full root path and the resolver
yields none. -/
theorem C2_stage1_counterexample :
    determineProjectForConversation
      { name := none, newlyCreatedFiles := none, codeBlockData := none,
        fullConversationHeadersOnly := none, lastUpdatedAt := none,
        createdAt := none }
      "c1" [("c1", ["/a/b"])] [("b", "W")] [] [] = none ∧
    resolverClaimC2
      { name := none, newlyCreatedFiles := none, codeBlockData := none,
        fullConversationHeadersOnly := none, lastUpdatedAt := none,
        createdAt := none }
      "c1" [("c1", ["/a/b"])] [("b", "W")] [] [] = some "W" := by
  refine ⟨by decide, by decide⟩

theorem legacyComposerScan_workspaceId (queryLower query now : String)
    (e : WorkspaceEntry) (cs : List LComposer) :
    ∀ r ∈ legacyComposerScan queryLower query now e cs, r.workspaceId = e.name := by
  induction cs with
  | nil => simp [legacyComposerScan]
  | cons c rest ih =>
    intro r hr
    rw [legacyComposerScan] at hr
    rcases hm : lcomposerMatch queryLower query c with _ | mt
    · rw [hm] at hr
      exact ih r hr
    · rw [hm] at hr
      rcases ht : lcomposerTitle c with _ | title
      · rw [ht] at hr
        simp at hr
      · rw [ht] at hr
        rcases List.mem_cons.mp hr with h | h
        · subst h; rfl
        · exact ih r h

theorem legacyEntryResults_workspaceId (tp queryLower query now : String)
    (stores : List (String × StoreAccess LegacyStore)) (e : WorkspaceEntry) :
    ∀ r ∈ legacyEntryResults tp queryLower query now stores e,
      r.workspaceId = e.name := by
  intro r hr
  unfold legacyEntryResults at hr
  rcases hl : List.lookup e.name stores with _ | (_ | _ | s) <;> rw [hl] at hr
  · simp at hr
  · simp at hr
  · simp at hr
  · rcases List.mem_append.mp hr with h | h
    · by_cases htp : tp = "all" ∨ tp = "chat"
      · rw [if_pos htp] at h
        exact (chatDataResults_fields queryLower query now e.name (some e.folder)
          s.chatRow r h).1
      · rw [if_neg htp] at h
        simp at h
    · by_cases htp : tp = "all" ∨ tp = "composer"
      · rw [if_pos htp] at h
        unfold legacyComposerResults at h
        rcases hcr : s.composerRow with _ | (_ | cdd) <;> rw [hcr] at h
        · simp at h
        · simp at h
        · dsimp only at h
          rcases hac : cdd.allComposers with _ | cs <;> rw [hac] at h
          · simp at h
          · exact legacyComposerScan_workspaceId queryLower query now e cs r h
      · rw [if_neg htp] at h
        simp at h

/-- C2 (amended): the resolver is exactly the ordered four-stage chain with
first truthy success winning — stage 1 looking each recorded root path up
*verbatim* in the folder index (amended from the claimed final-segment
lookup), then newly-created-file prefix matches, then code-block prefix
matches, then per-bubble file references and context selections.  A
conversation on which the whole chain fails is excluded from unified-store
agent results, and every legacy-store result carries its enclosing
workspace entry's id without consulting the resolver. -/
theorem C2_resolver_chain (cd : ComposerData) (cid : String)
    (layouts : List (String × List String)) (idx : List (String × String))
    (entries : List WorkspaceEntry) (bm : List (String × GBubble)) :
    determineProjectForConversation cd cid layouts idx entries bm
      = resolverChain cd cid layouts idx entries bm ∧
    (∀ w, stageProjectLayouts layouts idx cid = some w →
      resolverChain cd cid layouts idx entries bm = some w) ∧
    (stageProjectLayouts layouts idx cid = none →
      ∀ w, stageNewFiles cd entries = some w →
      resolverChain cd cid layouts idx entries bm = some w) ∧
    (stageProjectLayouts layouts idx cid = none →
      stageNewFiles cd entries = none →
      ∀ w, stageCodeBlocks cd entries = some w →
      resolverChain cd cid layouts idx entries bm = some w) ∧
    (stageProjectLayouts layouts idx cid = none →
      stageNewFiles cd entries = none →
      stageCodeBlocks cd entries = none →
      resolverChain cd cid layouts idx entries bm = stageBubbleRefs cd bm entries) ∧
    (∀ (bm2 : List (String × GBubble)) (l2 : List (String × List String))
        (i2 : List (String × String)) (e2 : List WorkspaceEntry)
        (qL q now : String) (row : String × Option ComposerData)
        (cd2 : ComposerData),
      row.2 = some cd2 →
      determineProjectForConversation cd2 ((jsSplit row.1 ':').getD 1 "")
        l2 i2 e2 bm2 = none →
      agentRowResult bm2 l2 i2 e2 qL q now row = none) ∧
    (∀ (tp qL q now : String)
        (stores : List (String × StoreAccess LegacyStore))
        (e : WorkspaceEntry),
      ∀ r ∈ legacyEntryResults tp qL q now stores e,
        r.workspaceId = e.name) := by
  refine ⟨rfl, ?_, ?_, ?_, ?_, ?_, legacyEntryResults_workspaceId⟩
  · intro w h
    unfold resolverChain
    rw [h]
  · intro h1 w h2
    unfold resolverChain
    rw [h1, h2]
  · intro h1 h2 w h3
    unfold resolverChain
    rw [h1, h2, h3]
  · intro h1 h2 h3
    unfold resolverChain
    rw [h1, h2, h3]
  · intro bm2 l2 i2 e2 qL q now row cd2 hrow hdet
    obtain ⟨k, v⟩ := row
    simp only at hrow hdet
    subst hrow
    rcases hm : agentMatchResult bm2 qL q cd2 ((jsSplit k ':').getD 1 "") with _ | mt
    · simp only [agentRowResult]
      dsimp only
      rw [hm]
    · simp only [agentRowResult]
      dsimp only
      rw [hm, hdet]

/-- C2 witness: with the stage-1 evidence pointing at a root path equal to
a workspace folder's last segment, the resolver resolves it; with no
resolver evidence at all the agent row is excluded. -/
theorem C2_resolver_chain_witness :
    resolverChain
      { name := none, newlyCreatedFiles := none, codeBlockData := none,
        fullConversationHeadersOnly := none, lastUpdatedAt := none,
        createdAt := none }
      "c1" [("c1", ["b"])] [("b", "W")] [] [] = some "W" ∧
    agentRowResult [] [] [] [] "q" "q" "now"
      ("composerData:c9",
        some { name := some "q", newlyCreatedFiles := none,
               codeBlockData := none, fullConversationHeadersOnly := none,
               lastUpdatedAt := none, createdAt := none }) = none :=
  ⟨(C2_resolver_chain _ "c1" [("c1", ["b"])] [("b", "W")] [] []).2.1 "W"
      (by decide),
   (C2_resolver_chain
      { name := none, newlyCreatedFiles := none, codeBlockData := none,
        fullConversationHeadersOnly := none, lastUpdatedAt := none,
        createdAt := none }
      "x" [] [] [] []).2.2.2.2.2.1 [] [] [] [] "q" "q" "now" _ _ rfl
      (by decide)⟩

theorem legacyEntryResults_openFail (tp queryLower query now : String)
    (stores : List (String × StoreAccess LegacyStore)) (e : WorkspaceEntry)
    (h : List.lookup e.name stores = some .openFail) :
    legacyEntryResults tp queryLower query now stores e = [] := by
  simp [legacyEntryResults, h]

/-- C7: failures below the request level are contained: a bubble row or a
composer row whose value fails to parse is skipped while the rest of the
store is scanned unchanged; a unified store that fails to open contributes
nothing while every legacy store is still scanned; a legacy store that
fails to open contributes nothing while the stores before and after it are
scanned unchanged. -/
theorem C7_fault_isolation :
    (∀ (pre post : List (String × Option GBubble)) (k : String),
      buildBubbleMap (pre ++ (k, none) :: post) = buildBubbleMap (pre ++ post)) ∧
    (∀ (bm : List (String × GBubble)) (l : List (String × List String))
        (idx : List (String × String)) (entries : List WorkspaceEntry)
        (qL q now : String) (pre post : List (String × Option ComposerData))
        (k : String),
      (pre ++ (k, none) :: post).filterMap (agentRowResult bm l idx entries qL q now)
        = (pre ++ post).filterMap (agentRowResult bm l idx entries qL q now)) ∧
    (∀ (env : Env) (q : String), env.globalStore = .openFail →
      rawResults env q = env.workspaceEntries.flatMap
        (legacyEntryResults (typeParamOf env) (jsToLower q) q env.now
          env.legacyStores)) ∧
    (∀ (tp qL q now : String) (stores : List (String × StoreAccess LegacyStore))
        (e : WorkspaceEntry),
      List.lookup e.name stores = some .openFail →
      legacyEntryResults tp qL q now stores e = []) ∧
    (∀ (env : Env) (q : String) (pre post : List WorkspaceEntry)
        (e : WorkspaceEntry),
      env.workspaceEntries = pre ++ e :: post →
      List.lookup e.name env.legacyStores = some .openFail →
      rawResults env q
        = unifiedResults (typeParamOf env) (jsToLower q) q env.now
            env.workspaceEntries env.globalStore
          ++ (pre.flatMap (legacyEntryResults (typeParamOf env) (jsToLower q) q
                env.now env.legacyStores)
            ++ post.flatMap (legacyEntryResults (typeParamOf env) (jsToLower q) q
                env.now env.legacyStores))) := by
  refine ⟨?_, ?_, ?_, legacyEntryResults_openFail, ?_⟩
  · intro pre post k
    unfold buildBubbleMap
    rw [List.foldl_append, List.foldl_append, List.foldl_cons]
    congr 1
    dsimp only
    split <;> rfl
  · intro bm l idx entries qL q now pre post k
    rw [List.filterMap_append, List.filterMap_append]
    congr 1
  · intro env q h
    simp only [rawResults, h]
    rfl
  · intro env q pre post e hent hl
    simp only [rawResults, hent, List.flatMap_append, List.flatMap_cons]
    rw [legacyEntryResults_openFail _ _ _ _ _ _ hl]
    simp [hent]

/-- The workspace entry used by the C7 witness. -/
def entW : WorkspaceEntry where
  name := "W"
  folder := "/w"

/-- A well-formed unified composer row matching the query `needle` and
resolving to `entW`, used by the C7 witness. -/
def rowGood : String × Option ComposerData :=
  ("composerData:c1",
    some { name := some "needle", newlyCreatedFiles := some [some "/w/x.ts"],
           codeBlockData := none, fullConversationHeadersOnly := none,
           lastUpdatedAt := none, createdAt := none })

/-- C7 witness: a store with nine well-formed composer records and one
malformed one yields exactly nine results; an open-failing legacy store
contributes nothing. -/
theorem C7_fault_isolation_witness :
    ((List.replicate 5 rowGood ++ ("composerData:bad", none) ::
        List.replicate 4 rowGood).filterMap
      (agentRowResult [] [] [] [entW] "needle" "needle" "now")).length = 9 ∧
    buildBubbleMap [("bubbleId:c:g", none)] = buildBubbleMap [] ∧
    legacyEntryResults "all" "x" "x" "now" [("w1", .openFail)]
      { name := "w1", folder := "/w1" } = [] :=
  ⟨(congrArg List.length
      (C7_fault_isolation.2.1 [] [] [] [entW] "needle" "needle" "now"
        (List.replicate 5 rowGood) (List.replicate 4 rowGood)
        "composerData:bad")).trans (by decide),
   C7_fault_isolation.1 [] [] "bubbleId:c:g",
   C7_fault_isolation.2.2.2.1 "all" "x" "x" "now" [("w1", .openFail)]
     { name := "w1", folder := "/w1" } rfl⟩

theorem jsToLower_length (q : String) : (jsToLower q).length = q.length := by
  show (q.data.map Char.toLower).length = q.data.length
  exact List.length_map _ _

theorem mkSnippet_query_congr (t qL : String) {q1 q2 : String}
    (h : q1.length = q2.length) : mkSnippet t qL q1 = mkSnippet t qL q2 := by
  unfold mkSnippet
  rw [h]

theorem firstBubbleSnippet_query_congr {q1 q2 : String} (qL : String)
    (h : q1.length = q2.length) (ts : List String) :
    firstBubbleSnippet qL q1 ts = firstBubbleSnippet qL q2 ts := by
  induction ts with
  | nil => rfl
  | cons t rest ih =>
    simp only [firstBubbleSnippet, mkSnippet_query_congr t qL h, ih]

theorem agentScan_eq_firstBubble (bm : List (String × GBubble)) (qL q : String)
    (hs : List Header) :
    agentScanBubbles bm qL q hs
      = firstBubbleSnippet qL q
          (hs.filterMap (fun h => (List.lookup h.bubbleId bm).map
            extractTextFromBubble)) := by
  induction hs with
  | nil => rfl
  | cons h rest ih =>
    rcases hl : List.lookup h.bubbleId bm with _ | b
    · simpa [agentScanBubbles, firstSome, hl] using ih
    · by_cases hc :
        strContains (jsToLower (extractTextFromBubble b)) qL = true
      · simp [agentScanBubbles, firstSome, hl, hc, firstBubbleSnippet]
      · rw [Bool.not_eq_true] at hc
        simpa [agentScanBubbles, firstSome, hl, hc, firstBubbleSnippet] using ih

theorem tabScan_eq_firstBubble (qL q : String) (bs : List TabBubble) :
    firstSome (fun b =>
      match b.text with
      | some t =>
        if strContains (jsToLower t) qL then some (mkSnippet t qL q) else none
      | none => none) bs
    = firstBubbleSnippet qL q (bs.filterMap TabBubble.text) := by
  induction bs with
  | nil => rfl
  | cons b rest ih =>
    rcases hb : b.text with _ | t
    · simpa [firstSome, hb] using ih
    · by_cases hc : strContains (jsToLower t) qL = true
      · simp [firstSome, hb, hc, firstBubbleSnippet]
      · rw [Bool.not_eq_true] at hc
        simpa [firstSome, hb, hc, firstBubbleSnippet] using ih

theorem msgScan_eq_firstBubble (qL q : String) (ms : List LMsg) :
    firstSome (fun m =>
      match m.text with
      | some t =>
        if strContains (jsToLower t) qL then some (mkSnippet t qL q) else none
      | none => none) ms
    = firstBubbleSnippet qL q (ms.filterMap LMsg.text) := by
  induction ms with
  | nil => rfl
  | cons m rest ih =>
    rcases hm : m.text with _ | t
    · simpa [firstSome, hm] using ih
    · by_cases hc : strContains (jsToLower t) qL = true
      · simp [firstSome, hm, hc, firstBubbleSnippet]
      · rw [Bool.not_eq_true] at hc
        simpa [firstSome, hm, hc, firstBubbleSnippet] using ih

/-- C1: the four conversation sources share one matching discipline
(`matchConv`): the lower-cased title is tested for the lower-cased query
first and returned whole on a hit, otherwise the bubble texts are scanned
in order and the first containing text yields the (single) snippet; the
whole computation depends on the query only through its lower-casing, so
matching is case-insensitive. -/
theorem C1_matching_discipline :
    (∀ (bm : List (String × GBubble)) (qL q : String) (cd : ComposerData)
        (cid : String),
      agentMatchResult bm qL q cd cid
        = matchConv qL q (some (agentTitle cd cid))
            (((cd.fullConversationHeadersOnly).getD []).filterMap
              (fun h => (List.lookup h.bubbleId bm).map extractTextFromBubble))) ∧
    (∀ (qL q : String) (tab : Tab),
      tabMatchResult qL q tab
        = matchConv qL q tab.chatTitle
            ((tab.bubbles.getD []).filterMap TabBubble.text)) ∧
    (∀ (qL q : String) (c : LComposer),
      lcomposerMatch qL q c
        = matchConv qL q c.text
            ((c.conversation.getD []).filterMap LMsg.text)) ∧
    (∀ q1 q2, jsToLower q1 = jsToLower q2 →
      ∀ (title : Option String) (texts : List String),
        matchConv (jsToLower q1) q1 title texts
          = matchConv (jsToLower q2) q2 title texts) ∧
    (∀ (qL q : String) (title : Option String),
      (∀ s, title = some s → strContains (jsToLower s) qL = false) →
      ∀ (pre : List String) (t : String) (post : List String),
        (∀ p ∈ pre, strContains (jsToLower p) qL = false) →
        strContains (jsToLower t) qL = true →
        matchConv qL q title (pre ++ t :: post) = some (mkSnippet t qL q)) := by
  refine ⟨?_, ?_, ?_, ?_, ?_⟩
  · intro bm qL q cd cid
    unfold agentMatchResult matchConv
    by_cases hc : strContains (jsToLower (agentTitle cd cid)) qL = true
    · simp [hc]
    · rw [Bool.not_eq_true] at hc
      simp [hc, agentScan_eq_firstBubble]
  · intro qL q tab
    unfold tabMatchResult matchConv
    rcases tab with ⟨tid, title, lst, bubbles⟩
    rcases title with _ | t
    · rcases bubbles with _ | bs
      · rfl
      · simpa using tabScan_eq_firstBubble qL q bs
    · by_cases hc : strContains (jsToLower t) qL = true
      · simp [hc]
      · rw [Bool.not_eq_true] at hc
        rcases bubbles with _ | bs
        · simp [hc, firstBubbleSnippet]
        · simpa [hc] using tabScan_eq_firstBubble qL q bs
  · intro qL q c
    unfold lcomposerMatch matchConv
    rcases c with ⟨cid, text, conv, lu, ca⟩
    rcases text with _ | t
    · rcases conv with _ | ms
      · rfl
      · simpa using msgScan_eq_firstBubble qL q ms
    · by_cases hc : strContains (jsToLower t) qL = true
      · simp [hc]
      · rw [Bool.not_eq_true] at hc
        rcases conv with _ | ms
        · simp [hc, firstBubbleSnippet]
        · simpa [hc] using msgScan_eq_firstBubble qL q ms
  · intro q1 q2 h title texts
    have hlen : q1.length = q2.length := by
      have hl := congrArg String.length h
      rwa [jsToLower_length, jsToLower_length] at hl
    unfold matchConv
    rw [h]
    rcases title with _ | t
    · exact firstBubbleSnippet_query_congr _ hlen texts
    · by_cases hc : strContains (jsToLower t) (jsToLower q2) = true
      · simp [hc]
      · rw [Bool.not_eq_true] at hc
        simp [hc, firstBubbleSnippet_query_congr _ hlen texts]
  · intro qL q title htitle pre t post hpre ht
    have hscan : firstBubbleSnippet qL q (pre ++ t :: post)
        = some (mkSnippet t qL q) := by
      induction pre with
      | nil => simp [firstBubbleSnippet, ht]
      | cons p rest ih =>
        have hp := hpre p (List.mem_cons_self p rest)
        simp only [List.cons_append, firstBubbleSnippet, hp]
        exact ih (fun x hx => hpre x (List.mem_cons_of_mem p hx))
    rcases title with _ | s
    · simpa [matchConv] using hscan
    · have hs := htitle s rfl
      simpa [matchConv, hs] using hscan

/-- C1 witness: matching is case-insensitive across query spellings, and
with a non-matching title the first matching bubble (not a later one)
supplies the snippet. -/
theorem C1_matching_discipline_witness :
    matchConv (jsToLower "NeedLE") "NeedLE" (some "title") ["a needle b"]
      = matchConv (jsToLower "needle") "needle" (some "title") ["a needle b"] ∧
    matchConv "needle" "NEEDLE" (some "zz") (["xx"] ++ "find Needle" :: ["needle too"])
      = some (mkSnippet "find Needle" "needle" "NEEDLE") :=
  ⟨C1_matching_discipline.2.2.2.1 "NeedLE" "needle" (by decide)
      (some "title") ["a needle b"],
   C1_matching_discipline.2.2.2.2 "needle" "NEEDLE" (some "zz")
      (by decide) ["xx"] "find Needle" ["needle too"] (by decide) (by decide)⟩

theorem beq_comm_cid (a b : Option String) : (a == b) = (b == a) := by
  by_cases h : a = b
  · subst h
    rfl
  · have h' : ¬ b = a := fun he => h he.symm
    rw [Bool.eq_iff_iff]
    simp [h, h']

theorem dedupFirst_sublist (l : List SearchResult) :
    List.Sublist (dedupFirst l) l := by
  induction l using dedupFirst.induct with
  | case1 => simp [dedupFirst]
  | case2 r rest ih =>
    rw [dedupFirst]
    exact ((ih.trans (List.filter_sublist _)).cons₂ r)

theorem dedupFirst_pairwise (l : List SearchResult) :
    (dedupFirst l).Pairwise (fun a b => a.chatId ≠ b.chatId) := by
  induction l using dedupFirst.induct with
  | case1 => rw [dedupFirst]; exact List.Pairwise.nil
  | case2 r rest ih =>
    rw [dedupFirst]
    refine List.Pairwise.cons ?_ ih
    intro b hb
    have hbmem := (dedupFirst_sublist _).subset hb
    have hf := List.of_mem_filter hbmem
    simp only [Bool.not_eq_true', beq_eq_false_iff_ne, ne_eq] at hf
    exact fun he => hf he.symm

theorem dedupAux_eq (l : List SearchResult) :
    ∀ seen, dedupAux seen l
      = dedupFirst (l.filter
          (fun x => !(seen.any (fun y => y.chatId == x.chatId)))) := by
  induction l with
  | nil =>
    intro seen
    simp [dedupAux, dedupFirst]
  | cons r rest ih =>
    intro seen
    by_cases hs : seen.any (fun y => y.chatId == r.chatId) = true
    · rw [dedupAux, if_pos hs, List.filter_cons_of_neg (by simp [hs]), ih]
      congr 1
      refine List.filter_congr ?_
      intro x _
      by_cases hx : r.chatId == x.chatId
      · have hxx : x.chatId = r.chatId := (eq_of_beq hx).symm
        have hsx : seen.any (fun y => y.chatId == x.chatId) = true := by
          rw [List.any_eq_true] at hs ⊢
          obtain ⟨y, hy, hyb⟩ := hs
          exact ⟨y, hy, by rw [eq_of_beq hyb, hxx]; exact beq_self_eq_true _⟩
        simp [List.any_append, hsx]
      · simp only [Bool.not_eq_true] at hx
        simp [List.any_append, hx]
    · rw [Bool.not_eq_true] at hs
      rw [dedupAux, if_neg (by simp [hs]),
        List.filter_cons_of_pos (by simp [hs]), dedupFirst, ih]
      congr 1
      rw [List.filter_filter]
      congr 1
      refine List.filter_congr ?_
      intro x _
      simp only [List.any_append, List.any_cons, List.any_nil, Bool.or_false,
        Bool.not_or]
      rw [beq_comm_cid x.chatId r.chatId]
      exact (Bool.and_comm _ _)

theorem dedupByChatId_eq_dedupFirst (l : List SearchResult) :
    dedupByChatId l = dedupFirst l := by
  have h := dedupAux_eq l []
  simpa [dedupByChatId, List.any_nil] using h

/-- C3: the returned result list never contains two entries with the same
`chatId`; the deduplication keeps, for each `chatId`, the first occurrence
of the raw accumulation, whose order is unified-store agent results, then
unified-store ask results, then the legacy stores in workspace-enumeration
order. -/
theorem C3_dedup_first_occurrence (env : Env) (q : String)
    (res : List SearchResult) (hq : env.query = some q) (hne : q ≠ "")
    (hres : searchGET env = .ok res) :
    res.Pairwise (fun a b => a.chatId ≠ b.chatId) ∧
    res = sortResults env.dateVal (dedupFirst
      (unifiedResults (typeParamOf env) (jsToLower q) q env.now
          env.workspaceEntries env.globalStore
        ++ env.workspaceEntries.flatMap
          (legacyEntryResults (typeParamOf env) (jsToLower q) q env.now
            env.legacyStores))) := by
  have hres' : res = sortResults env.dateVal (dedupByChatId (rawResults env q)) := by
    rw [searchGET, hq] at hres
    dsimp only at hres
    rw [if_neg hne] at hres
    injection hres with h
    exact h.symm
  constructor
  · rw [hres']
    have hperm := List.mergeSort_perm (dedupByChatId (rawResults env q))
      (fun a b => decide (tsKey env.dateVal b.timestamp ≤ tsKey env.dateVal a.timestamp))
    refine (List.Perm.pairwise_iff (fun h he => h he.symm) hperm).mpr ?_
    rw [dedupByChatId_eq_dedupFirst]
    exact dedupFirst_pairwise _
  · rw [hres', dedupByChatId_eq_dedupFirst]
    rfl

/-- First duplicate ask tab (workspace `w1`). -/
def tabDup1 : Tab where
  tabId := some "dup"
  chatTitle := some "x one"
  lastSendTime := some (.num 5)
  bubbles := none

/-- Second duplicate ask tab (workspace `w2`). -/
def tabDup2 : Tab where
  tabId := some "dup"
  chatTitle := some "x two"
  lastSendTime := some (.num 9)
  bubbles := none

/-- Legacy store holding `tabDup1`. -/
def storeDup1 : LegacyStore where
  chatRow := some (some { tabs := some [tabDup1] })
  composerRow := none

/-- Legacy store holding `tabDup2`. -/
def storeDup2 : LegacyStore where
  chatRow := some (some { tabs := some [tabDup2] })
  composerRow := none

/-- An environment with two legacy workspaces holding ask tabs that share
the `chatId` `dup`, used to exercise the deduplication. -/
def envDup : Env where
  query := some "x"
  typeParamRaw := none
  now := "t0"
  dateVal := fun _ => 0
  workspaceEntries := [{ name := "w1", folder := "/w1" },
    { name := "w2", folder := "/w2" }]
  globalStore := .absent
  legacyStores := [("w1", .ok storeDup1), ("w2", .ok storeDup2)]

/-- The single surviving result of `envDup`: the first occurrence, from
workspace `w1`. -/
def resDup : SearchResult where
  workspaceId := "w1"
  workspaceFolder := some "/w1"
  chatId := some "dup"
  chatTitle := "x one"
  timestamp := .num 5
  matchingText := "x one"
  rtype := "chat"

/-- The duplicate of `resDup` accumulated from workspace `w2` (dropped by
the deduplication). -/
def resDup2 : SearchResult where
  workspaceId := "w2"
  workspaceFolder := some "/w2"
  chatId := some "dup"
  chatTitle := "x two"
  timestamp := .num 9
  matchingText := "x two"
  rtype := "chat"

theorem searchGET_envDup : searchGET envDup = .ok [resDup] := by
  have hraw : rawResults envDup "x" = [resDup, resDup2] := by decide
  rw [searchGET]
  show Response.ok (sortResults envDup.dateVal (dedupByChatId
    (rawResults envDup "x"))) = _
  rw [hraw]
  have hdedup : dedupByChatId [resDup, resDup2] = [resDup] := by decide
  rw [hdedup]
  show Response.ok (List.mergeSort _ _) = _
  rw [List.mergeSort_singleton]

/-- C3 witness: with the two duplicate-`chatId` ask tabs of `envDup`, the
returned list is duplicate-free and the `w1` occurrence (first in scan
order) survives. -/
theorem C3_dedup_first_occurrence_witness :
    [resDup].Pairwise
      (fun a b => a.chatId ≠ b.chatId) ∧
    [resDup] = sortResults envDup.dateVal (dedupFirst
      (unifiedResults (typeParamOf envDup) (jsToLower "x") "x" envDup.now
          envDup.workspaceEntries envDup.globalStore
        ++ envDup.workspaceEntries.flatMap
          (legacyEntryResults (typeParamOf envDup) (jsToLower "x") "x"
            envDup.now envDup.legacyStores))) :=
  C3_dedup_first_occurrence envDup "x" [resDup] rfl (by decide) searchGET_envDup

/-- C4: the returned result list is sorted non-increasing by the
normalized timestamp key: numeric timestamps compare directly, string
timestamps through the date parser. -/
theorem C4_sorted_descending (env : Env) (res : List SearchResult)
    (hres : searchGET env = .ok res) :
    res.Chain' (fun a b =>
      tsKey env.dateVal b.timestamp ≤ tsKey env.dateVal a.timestamp) := by
  rw [searchGET] at hres
  rcases hq : env.query with _ | q <;> rw [hq] at hres <;> dsimp only at hres
  · simp at hres
  · by_cases hq0 : q = ""
    · rw [if_pos hq0] at hres
      simp at hres
    · rw [if_neg hq0] at hres
      injection hres with h
      subst h
      refine List.Pairwise.chain' ?_
      have hs := @List.sorted_mergeSort SearchResult
        (fun a b =>
          decide (tsKey env.dateVal b.timestamp ≤ tsKey env.dateVal a.timestamp))
        (fun a b c hab hbc => by
          simp only [decide_eq_true_eq] at hab hbc ⊢
          exact le_trans hbc hab)
        (fun a b => by
          simp only [Bool.or_eq_true, decide_eq_true_eq]
          exact Int.le_total _ _)
        (dedupByChatId (rawResults env q))
      exact hs.imp (fun h => of_decide_eq_true h)

/-- C4 witness: the two-result environment sorts with the newer timestamp
first. -/
theorem C4_sorted_descending_witness :
    List.Chain' (fun a b =>
      tsKey envDup.dateVal b.timestamp ≤ tsKey envDup.dateVal a.timestamp)
      [resDup] :=
  C4_sorted_descending envDup [resDup] searchGET_envDup

end SearchRoute
